import Mathlib

/-!
Verification of the volume attachment protocol of the oci-flexvolume-driver.

The Go sources are shallowly embedded: Go strings become `List Char`
(`Str`), fallible calls become `Except`, the remote cloud state consumed by
a call-out becomes an explicit environment record, and the bounded polling
loops become fuel recursion that additionally counts the sleeps performed.
-/

set_option autoImplicit false

deriving instance DecidableEq for Except

namespace OCIFlex

/-- Go strings are modelled as lists of characters. -/
abbrev Str := List Char

/-- The character list of a string literal. -/
def chars (s : String) : Str := s.data

/-- Rendering of fmt's %q verb for strings that contain no character in
need of escaping (all strings quoted by the driver are plain ASCII
identifiers or lifecycle-state names). -/
def goQuote (s : Str) : Str := chars ("\"") ++ s ++ chars ("\"")

/-- Rendering of fmt's %d verb for a natural number. -/
def natChars (n : Nat) : Str := (Nat.repr n).data

/-! ## Volume identifier codec (pkg/oci/driver, `DeriveVolumeOCID`) -/

/-- `ocidPrefix` constant of pkg/oci/driver. -/
def ocidPre : Str := chars ("ocid1.")

/-- `volumeOCIDTemplate` of pkg/oci/driver: result of substituting a region
segment and a volume name into `"ocid1.volume.oc1.%s.%s"`. -/
def volumeOCIDTemplate (region name : Str) : Str :=
  chars ("ocid1.volume.oc1.") ++ region ++ chars (".") ++ name

/-- `DeriveVolumeOCID` of pkg/oci/driver: an input already carrying the
OCID marker is returned unchanged; otherwise the region key is substituted
into the fixed template, with the single irregular region key `fra`
translated to `eu-frankfurt-1`. -/
def DeriveVolumeOCID (regionKey volumeName : Str) : Str :=
  if ocidPre.isPrefixOf volumeName then volumeName
  else if regionKey = chars ("fra") then
    volumeOCIDTemplate (chars ("eu-frankfurt-1")) volumeName
  else
    volumeOCIDTemplate regionKey volumeName

/-! ## Data model: volume attachments and call-out results -/

/-- `baremetal.ResourceAttaching`: the ATTACHING lifecycle state. -/
def ResourceAttaching : Str := chars ("ATTACHING")

/-- `baremetal.ResourceAttached`: the ATTACHED lifecycle state. -/
def ResourceAttached : Str := chars ("ATTACHED")

/-- `baremetal.ResourceDetaching`: the DETACHING lifecycle state. -/
def ResourceDetaching : Str := chars ("DETACHING")

/-- `baremetal.ResourceDetached`: the DETACHED lifecycle state. -/
def ResourceDetached : Str := chars ("DETACHED")

/-- A volume attachment as consumed by the driver: identifier, owning
instance identifier, lifecycle state, and the iSCSI connection data used to
build the local device path.  `isIscsi` records whether the value type
asserts to `core.IScsiVolumeAttachment`. -/
structure VolumeAttachment where
  id : Str
  instanceId : Str
  state : Str
  isIscsi : Bool
  ipv4 : Str
  port : Nat
  iqn : Str
  deriving DecidableEq, Repr

/-- `flexvolume.StatusSuccess`. -/
def StatusSuccess : Str := chars ("Success")

/-- `flexvolume.StatusFailure`. -/
def StatusFailure : Str := chars ("Failure")

/-- `flexvolume.StatusNotSupported`. -/
def StatusNotSupported : Str := chars ("Not supported")

/-- `flexvolume.DriverStatus`: result of one call-out. -/
structure DriverStatus where
  status : Str
  message : Str
  device : Str
  attached : Bool
  deriving DecidableEq, Repr

/-- `flexvolume.Fail` applied to an already-formatted message (the Go
function renders its arguments with `fmt.Sprint`; all call sites below pass
the rendered concatenation). -/
def Fail (msg : Str) : DriverStatus :=
  { status := StatusFailure, message := msg, device := [], attached := false }

/-- `flexvolume.Succeed` applied to an already-formatted message. -/
def Succeed (msg : Str) : DriverStatus :=
  { status := StatusSuccess, message := msg, device := [], attached := false }

/-- `flexvolume.NotSupported` applied to an already-formatted message. -/
def NotSupported (msg : Str) : DriverStatus :=
  { status := StatusNotSupported, message := msg, device := [], attached := false }

/-- `flexvolume.ExitWithResult`: the process exit code is 0 for a Success
or Not-supported result and 1 otherwise. -/
def exitCode (r : DriverStatus) : Nat :=
  if r.status = StatusSuccess ∨ r.status = StatusNotSupported then 0 else 1

/-! ## Cloud client (pkg/oci/client/oci.go) -/

/-- `ociMaxRetries`: polling budget of the wait loops. -/
def ociMaxRetries : Nat := 120

/-- The match predicate of `FindVolumeAttachment`: an attachment counts
when its state is ATTACHING or ATTACHED. -/
def isLive (a : VolumeAttachment) : Bool :=
  decide (a.state = ResourceAttaching) || decide (a.state = ResourceAttached)

/-- The error returned when pagination exhausts without a live attachment:
`failed to find volume attachment for %q`. -/
def findErrMsg (volumeId : Str) : Str :=
  chars ("failed to find volume attachment for ") ++ goQuote volumeId

/-- `client.FindVolumeAttachment`: walk the paginated list-volume-attachments
responses (each page either a transport error or a list of attachments for
the requested volume), returning the first entry in ATTACHING or ATTACHED
state and stopping at the first match; exhausting all pages yields the
failed-to-find error. -/
def FindVolumeAttachment (volumeId : Str) :
    List (Except Str (List VolumeAttachment)) → Except Str VolumeAttachment
  | [] => Except.error (findErrMsg volumeId)
  | Except.error e :: _ => Except.error e
  | Except.ok page :: rest =>
    match page.find? isLive with
    | some a => Except.ok a
    | none => FindVolumeAttachment volumeId rest

/-- Error of `WaitForVolumeAttached` on an unexpected lifecycle state:
`unexpected state %q while wating for volume attach` (sic, as in source). -/
def unexpectedAttachMsg (s : Str) : Str :=
  chars ("unexpected state ") ++ goQuote s ++ chars (" while wating for volume attach")

/-- Error of `WaitForVolumeAttached` on retry-budget exhaustion:
`maximum number of retries (%d) exceeed attaching volume` (sic). -/
def maxRetriesAttachMsg : Str :=
  chars ("maximum number of retries (") ++ natChars ociMaxRetries
    ++ chars (") exceeed attaching volume")

/-- Error of `WaitForVolumeDetached` on an unexpected lifecycle state. -/
def unexpectedDetachMsg (s : Str) : Str :=
  chars ("unexpected state ") ++ goQuote s ++ chars (" while wating for volume detach")

/-- Error of `WaitForVolumeDetached` on retry-budget exhaustion. -/
def maxRetriesDetachMsg : Str :=
  chars ("maximum number of retries (") ++ natChars ociMaxRetries
    ++ chars (") exceeed detaching volume")

/-- The polling loop of `client.WaitForVolumeAttached`.  `poll i` is the
outcome of the i-th get-volume-attachment call; `fuel` is the remaining
retry budget and `sleeps` the count of sleeps performed so far.  An
ATTACHING observation sleeps and retries, ATTACHED returns the attachment,
any other state is a non-retryable error; spent fuel is the budget error. -/
def WaitForVolumeAttachedAux (poll : Nat → Except Str VolumeAttachment) :
    Nat → Nat → Nat → Except Str VolumeAttachment × Nat
  | _, 0, sleeps => (Except.error maxRetriesAttachMsg, sleeps)
  | i, fuel + 1, sleeps =>
    match poll i with
    | Except.error e => (Except.error e, sleeps)
    | Except.ok a =>
      if a.state = ResourceAttaching then
        WaitForVolumeAttachedAux poll (i + 1) fuel (sleeps + 1)
      else if a.state = ResourceAttached then (Except.ok a, sleeps)
      else (Except.error (unexpectedAttachMsg a.state), sleeps)

/-- `client.WaitForVolumeAttached`, paired with the number of sleeps the
loop performed. -/
def WaitForVolumeAttached (poll : Nat → Except Str VolumeAttachment) :
    Except Str VolumeAttachment × Nat :=
  WaitForVolumeAttachedAux poll 0 ociMaxRetries 0

/-- The polling loop of `client.WaitForVolumeDetached`: DETACHING sleeps
and retries, DETACHED succeeds, anything else is a non-retryable error. -/
def WaitForVolumeDetachedAux (poll : Nat → Except Str VolumeAttachment) :
    Nat → Nat → Nat → Except Str Unit × Nat
  | _, 0, sleeps => (Except.error maxRetriesDetachMsg, sleeps)
  | i, fuel + 1, sleeps =>
    match poll i with
    | Except.error e => (Except.error e, sleeps)
    | Except.ok a =>
      if a.state = ResourceDetaching then
        WaitForVolumeDetachedAux poll (i + 1) fuel (sleeps + 1)
      else if a.state = ResourceDetached then (Except.ok (), sleeps)
      else (Except.error (unexpectedDetachMsg a.state), sleeps)

/-- `client.WaitForVolumeDetached`, paired with the sleeps performed. -/
def WaitForVolumeDetached (poll : Nat → Except Str VolumeAttachment) :
    Except Str Unit × Nat :=
  WaitForVolumeDetachedAux poll 0 ociMaxRetries 0

/-! ## Block-volume driver call-outs (pkg/oci/block, pkg/oci/driver) -/

/-- `diskIDByPathTemplate` applied to the iSCSI connection data:
`/dev/disk/by-path/ip-%s:%d-iscsi-%s-lun-1`. -/
def diskByPath (ipv4 : Str) (port : Nat) (iqn : Str) : Str :=
  chars ("/dev/disk/by-path/ip-") ++ ipv4 ++ chars (":") ++ natChars port
    ++ chars ("-iscsi-") ++ iqn ++ chars ("-lun-1")

/-- The remote state consumed by one Attach call-out, after node-name and
volume-name resolution: the outcome and HTTP status code of the
attach-volume call, the paginated attachment listing used by the conflict
path, and the get-volume-attachment poll outcomes keyed by attachment
identifier. -/
structure AttachEnv where
  attachResult : Except Str VolumeAttachment
  attachStatusCode : Nat
  pages : List (Except Str (List VolumeAttachment))
  poll : Str → Nat → Except Str VolumeAttachment

/-- Tail of `Driver.Attach` once an attachment handle is in hand: wait for
ATTACHED, require an iSCSI attachment, and return the local device path. -/
def attachFinish (a : VolumeAttachment) (env : AttachEnv) : DriverStatus :=
  match (WaitForVolumeAttached (env.poll a.id)).1 with
  | Except.error e => Fail e
  | Except.ok att =>
    if att.isIscsi then
      { status := StatusSuccess, message := [],
        device := diskByPath att.ipv4 att.port att.iqn, attached := false }
    else Fail (chars ("Only ISCSI volume attachments are currently supported"))

/-- `Driver.Attach` (pkg/oci/block) from the attach-volume call onward: a
failing call with status code other than 409 propagates the error; on 409
the existing attachments are searched, a lookup error is propagated, an
attachment owned by a different instance fails with
`Already attached to instance: ` followed by the requested instance id (as
in source), and an attachment owned by the requested instance proceeds as
if the attach call had succeeded. -/
def AttachCore (instanceId volumeOCID : Str) (env : AttachEnv) : DriverStatus :=
  match env.attachResult with
  | Except.ok a => attachFinish a env
  | Except.error e =>
    if env.attachStatusCode ≠ 409 then Fail e
    else
      match FindVolumeAttachment volumeOCID env.pages with
      | Except.error e2 => Fail e2
      | Except.ok a =>
        if a.instanceId ≠ instanceId then
          Fail (chars ("Already attached to instance: ") ++ instanceId)
        else attachFinish a env

/-- The remote state consumed by one Detach call-out: the paginated
attachment listing, the detach-volume call outcome by attachment id, and
the get-volume-attachment poll outcomes by attachment id. -/
structure DetachEnv where
  pages : List (Except Str (List VolumeAttachment))
  detachResult : Str → Except Str Unit
  poll : Str → Nat → Except Str VolumeAttachment

/-- `Driver.Detach` (pkg/oci/block) after volume-name resolution: look up
the live attachment for the volume (propagating the lookup error),
issue the detach call, and wait for DETACHED. -/
def DetachCore (volumeOCID : Str) (env : DetachEnv) : DriverStatus :=
  match FindVolumeAttachment volumeOCID env.pages with
  | Except.error e => Fail e
  | Except.ok a =>
    match env.detachResult a.id with
    | Except.error e => Fail e
    | Except.ok _ =>
      match (WaitForVolumeDetached (env.poll a.id)).1 with
      | Except.error e => Fail e
      | Except.ok _ => Succeed []

/-- `Driver.IsAttached` (pkg/oci/block) after volume-name resolution: a
lookup error yields Success with the error text and attached false; a
found attachment yields Success with attached true. -/
def IsAttachedCore (volumeOCID : Str)
    (pages : List (Except Str (List VolumeAttachment))) : DriverStatus :=
  match FindVolumeAttachment volumeOCID pages with
  | Except.error e =>
    { status := StatusSuccess, message := e, device := [], attached := false }
  | Except.ok _ =>
    { status := StatusSuccess, message := [], device := [], attached := true }

/-! ## Driver registry (pkg/oci/driver: Register / Get) -/

/-- A registered driver value: `none` is Go's nil interface value, `some k`
a concrete driver. -/
abbrev DriverVal := Option Nat

/-- The process-wide `drivers` map, as an insertion-ordered association
list. -/
abbrev Registry := List (Str × DriverVal)

/-- Lookup in the `drivers` map. -/
def lookupDriver (reg : Registry) (name : Str) : Option DriverVal :=
  (reg.find? fun p => decide (p.1 = name)).map Prod.snd

/-- `Register` of pkg/oci/driver.  In the source, the short declaration
`driver, ok := drivers[name]` redeclares the function parameter `driver`
(parameters share the scope of the function body), so the value stored on
the missing-key path is the map lookup result — the zero value, nil — and
the argument `d` is never stored. -/
def Register (name : Str) (d : DriverVal) (reg : Registry) : Registry :=
  let driver := (lookupDriver reg name).getD none
  let ok := (lookupDriver reg name).isSome
  if ok then reg else reg ++ [(name, driver)]

/-- `Get` of pkg/oci/driver: the registered driver for a name, or the error
`could not find a registered driver for %s`. -/
def Get (name : Str) (reg : Registry) : Except Str DriverVal :=
  match lookupDriver reg name with
  | some d => Except.ok d
  | none => Except.error (chars ("could not find a registered driver for ") ++ name)

/-! ## Local device bridge (pkg/oci/block MountDevice / UnmountDevice) -/

/-- A side-effecting action of the local iSCSI bridge. -/
inductive IscsiAction where
  | addToDB
  | setAutomaticLogin
  | login
  | formatAndMount
  | unmountPath
  | logout
  | removeFromDB
  deriving DecidableEq, Repr

/-- Outcome of resolving a mount point path to an iSCSI mounter. -/
inductive MountPointErr where
  | notFound
  | other (msg : Str)
  deriving DecidableEq, Repr

/-- Modelled from the spec: the iSCSI capability interface consumed by
`MountDevice`/`UnmountDevice` (package pkg/iscsi — `NewFromDevicePath`,
`DeviceOpened`, `AddToDB`, `SetAutomaticLogin`, `Login`, `FormatAndMount`,
`NewFromMountPointPath` with its `ErrMountPointNotFound` sentinel,
`UnmountPath`, `Logout`, `RemoveFromDB`) and the bounded
`waitForPathToExist` helper are not under src/; per spec sections 4.4 and 6
they are a capability interface of fallible local operations, so each field
records the outcome the host would give to the corresponding call. -/
structure IscsiEnv where
  newFromDevicePath : Except Str Unit
  deviceOpened : Except Str Bool
  addToDB : Except Str Unit
  setAutomaticLogin : Except Str Unit
  login : Except Str Unit
  pathExists : Bool
  formatAndMount : Except Str Unit
  mountPointLookup : Except MountPointErr Unit
  unmountPath : Except Str Unit
  logout : Except Str Unit
  removeFromDB : Except Str Unit

/-- `Driver.MountDevice` (pkg/oci/block), returning the call-out result
together with the iSCSI actions performed: an already-open device succeeds
immediately with no action; otherwise the target is registered, automatic
login enabled, the session logged in, the device path awaited, and the
device formatted-and-mounted. -/
def MountDevice (env : IscsiEnv) (mountDevice : Str) : DriverStatus × List IscsiAction :=
  match env.newFromDevicePath with
  | Except.error e => (Fail e, [])
  | Except.ok _ =>
    match env.deviceOpened with
    | Except.error e => (Fail e, [])
    | Except.ok true => (Succeed (chars ("Device already mounted. Nothing to do.")), [])
    | Except.ok false =>
      match env.addToDB with
      | Except.error e => (Fail e, [IscsiAction.addToDB])
      | Except.ok _ =>
        match env.setAutomaticLogin with
        | Except.error e => (Fail e, [IscsiAction.addToDB, IscsiAction.setAutomaticLogin])
        | Except.ok _ =>
          match env.login with
          | Except.error e =>
            (Fail e, [IscsiAction.addToDB, IscsiAction.setAutomaticLogin, IscsiAction.login])
          | Except.ok _ =>
            if !env.pathExists then
              (Fail (chars ("Failed waiting for device to exist: ") ++ mountDevice),
               [IscsiAction.addToDB, IscsiAction.setAutomaticLogin, IscsiAction.login])
            else
              match env.formatAndMount with
              | Except.error e =>
                (Fail e, [IscsiAction.addToDB, IscsiAction.setAutomaticLogin,
                          IscsiAction.login, IscsiAction.formatAndMount])
              | Except.ok _ =>
                (Succeed [], [IscsiAction.addToDB, IscsiAction.setAutomaticLogin,
                              IscsiAction.login, IscsiAction.formatAndMount])

/-- `Driver.UnmountDevice` (pkg/oci/block) with the actions performed: a
missing mount point succeeds immediately with no action; otherwise the path
is unmounted, the session logged out, and the initiator record removed. -/
def UnmountDevice (env : IscsiEnv) : DriverStatus × List IscsiAction :=
  match env.mountPointLookup with
  | Except.error MountPointErr.notFound =>
    (Succeed (chars ("Mount point not found. Nothing to do.")), [])
  | Except.error (MountPointErr.other e) => (Fail e, [])
  | Except.ok _ =>
    match env.unmountPath with
    | Except.error e => (Fail e, [IscsiAction.unmountPath])
    | Except.ok _ =>
      match env.logout with
      | Except.error e => (Fail e, [IscsiAction.unmountPath, IscsiAction.logout])
      | Except.ok _ =>
        match env.removeFromDB with
        | Except.error e =>
          (Fail e, [IscsiAction.unmountPath, IscsiAction.logout, IscsiAction.removeFromDB])
        | Except.ok _ =>
          (Succeed [], [IscsiAction.unmountPath, IscsiAction.logout, IscsiAction.removeFromDB])

/-! ## Unsupported call-outs (pkg/oci/block Mount / Unmount,
pkg/flexvolume ExecDriver getvolumename case) -/

/-- The JSON options map of a call-out. -/
abbrev Options := List (Str × Str)

/-- `Driver.Mount` (pkg/oci/block): always Not supported. -/
def Driver.Mount (_mountDir : Str) (_opts : Options) : DriverStatus :=
  NotSupported []

/-- `Driver.Unmount` (pkg/oci/block): always Not supported. -/
def Driver.Unmount (_mountDir : Str) : DriverStatus :=
  NotSupported []

/-- The `getvolumename` case of `flexvolume.ExecDriver`: hardcoded Not
supported, regardless of the remaining arguments. -/
def execGetvolumename : DriverStatus :=
  NotSupported (chars ("getvolumename is broken as of kube 1.6.4"))

/-! ## Concrete fixtures used by witnesses and counterexamples -/

/-- A live (ATTACHED) iSCSI attachment bound to instance `instB`. -/
def c1OtherVA : VolumeAttachment :=
  { id := chars ("va1"), instanceId := chars ("instB"), state := ResourceAttached,
    isIscsi := true, ipv4 := chars ("169.254.2.2"), port := 3260,
    iqn := chars ("iqn.2015-12.com.oracleiaas:uniq") }

/-- Attach environment: attach call failed with 409 and the one existing
live attachment belongs to another instance. -/
def c1EnvOther : AttachEnv :=
  { attachResult := Except.error (chars ("conflict: attach failed")),
    attachStatusCode := 409, pages := [Except.ok [c1OtherVA]],
    poll := fun _ _ => Except.error [] }

/-- Attach environment: attach call failed with 409 but no attachment for
the volume exists any more. -/
def c1EnvNone : AttachEnv :=
  { attachResult := Except.error (chars ("conflict: attach failed")),
    attachStatusCode := 409, pages := [Except.ok []],
    poll := fun _ _ => Except.error [] }

/-- Attach environment: attach call failed with 409 and the existing live
attachment belongs to the requested instance `instA`. -/
def c1EnvSame : AttachEnv :=
  { attachResult := Except.error (chars ("conflict: attach failed")),
    attachStatusCode := 409,
    pages := [Except.ok [{ c1OtherVA with instanceId := chars ("instA") }]],
    poll := fun _ _ => Except.error [] }

/-- Detach environment for a volume whose attachment is already gone: the
listing still enumerates it, but only in DETACHED state. -/
def c2EnvGone : DetachEnv :=
  { pages := [Except.ok [{ c1OtherVA with state := ResourceDetached }]],
    detachResult := fun _ => Except.ok (),
    poll := fun _ _ => Except.error [] }

/-- Detach environment for an attached volume whose detach call and
detach-wait both succeed. -/
def c2EnvLive : DetachEnv :=
  { pages := [Except.ok [c1OtherVA]],
    detachResult := fun _ => Except.ok (),
    poll := fun _ _ => Except.ok { c1OtherVA with state := ResourceDetached } }

/-- Poll outcomes observing ATTACHING twice and then ATTACHED. -/
def c3Poll : Nat → Except Str VolumeAttachment :=
  fun i =>
    if i < 2 then Except.ok { c1OtherVA with state := ResourceAttaching }
    else Except.ok c1OtherVA

/-- Poll outcomes observing DETACHED on the first poll. -/
def c3DetachedPoll : Nat → Except Str VolumeAttachment :=
  fun _ => Except.ok { c1OtherVA with state := ResourceDetached }

/-- An iSCSI host state in which the device is already open/mounted and
the mount point is already gone. -/
def c7Env : IscsiEnv :=
  { newFromDevicePath := Except.ok (), deviceOpened := Except.ok true,
    addToDB := Except.ok (), setAutomaticLogin := Except.ok (),
    login := Except.ok (), pathExists := true, formatAndMount := Except.ok (),
    mountPointLookup := Except.error MountPointErr.notFound,
    unmountPath := Except.ok (), logout := Except.ok (),
    removeFromDB := Except.ok () }

/-!
## Theorems

One theorem (plus witness or counterexample where required) per claim of
the specification, in claim order.
-/

theorem ocidPre_isPrefixOf_template (region name : Str) :
    ocidPre.isPrefixOf (volumeOCIDTemplate region name) = true := by
  have hsplit : chars ("ocid1.volume.oc1.") = ocidPre ++ chars ("volume.oc1.") := by decide
  have h : volumeOCIDTemplate region name
      = ocidPre ++ (chars ("volume.oc1.") ++ region ++ chars (".") ++ name) := by
    simp [volumeOCIDTemplate, hsplit]
  rw [h, List.isPrefixOf_iff_prefix]
  exact (ocidPre.prefix_append _)

/-- C5: `DeriveVolumeOCID` is idempotent, and an input already carrying the
canonical identifier marker is returned unchanged. -/
theorem deriveVolumeOCID_idempotent (r n : Str) :
    DeriveVolumeOCID r (DeriveVolumeOCID r n) = DeriveVolumeOCID r n ∧
    (ocidPre.isPrefixOf n = true → DeriveVolumeOCID r n = n) := by
  constructor
  · by_cases hp : ocidPre.isPrefixOf n = true
    · simp [DeriveVolumeOCID, hp]
    · by_cases hf : r = chars ("fra") <;>
        simp [DeriveVolumeOCID, hp, hf, ocidPre_isPrefixOf_template]
  · intro hp
    simp [DeriveVolumeOCID, hp]

/-- Witness for C5 at a concrete full identifier input. -/
theorem deriveVolumeOCID_idempotent_witness :
    DeriveVolumeOCID (chars ("phx")) (chars ("ocid1.volume.oc1.phx.aa"))
      = chars ("ocid1.volume.oc1.phx.aa") :=
  (deriveVolumeOCID_idempotent (chars ("phx")) (chars ("ocid1.volume.oc1.phx.aa"))).2
    (by decide)

/-- C6: `DeriveVolumeOCID` substitutes the region key into the fixed
template, translating only the irregular key `fra`; any other key passes
through unchanged as the region segment. -/
theorem deriveVolumeOCID_regions (r n : Str) :
    DeriveVolumeOCID (chars ("phx")) (chars ("aaaaaa"))
        = chars ("ocid1.volume.oc1.phx.aaaaaa") ∧
    DeriveVolumeOCID (chars ("iad")) (chars ("aaaaaa"))
        = chars ("ocid1.volume.oc1.iad.aaaaaa") ∧
    DeriveVolumeOCID (chars ("fra")) (chars ("aaaaaa"))
        = chars ("ocid1.volume.oc1.eu-frankfurt-1.aaaaaa") ∧
    (r ≠ chars ("fra") → ocidPre.isPrefixOf n = false →
      DeriveVolumeOCID r n = chars ("ocid1.volume.oc1.") ++ r ++ chars (".") ++ n) := by
  refine ⟨by decide, by decide, by decide, ?_⟩
  intro hr hn
  simp [DeriveVolumeOCID, hn, hr, volumeOCIDTemplate]

/-- Witness for C6 at a concrete regular region key. -/
theorem deriveVolumeOCID_regions_witness :
    DeriveVolumeOCID (chars ("lhr")) (chars ("bbb"))
      = chars ("ocid1.volume.oc1.") ++ chars ("lhr") ++ chars (".") ++ chars ("bbb") :=
  (deriveVolumeOCID_regions (chars ("lhr")) (chars ("bbb"))).2.2.2 (by decide) (by decide)

/-- C4: over error-free pages, `FindVolumeAttachment` returns the first
entry of the page sequence whose state is ATTACHING or ATTACHED (skipping
entries in any other state), pagination stops at the first page containing
a match (later pages cannot change the result), and exhausting all pages
yields the failed-to-find error for the volume id. -/
theorem findVolumeAttachment_first_live (v : Str) (pages : List (List VolumeAttachment)) :
    (FindVolumeAttachment v (pages.map Except.ok) =
      match pages.flatten.find? isLive with
      | some a => Except.ok a
      | none => Except.error (findErrMsg v)) ∧
    (∀ front back : List (List VolumeAttachment), front.flatten.any isLive = true →
      FindVolumeAttachment v ((front ++ back).map Except.ok)
        = FindVolumeAttachment v (front.map Except.ok)) := by
  have main : ∀ ps : List (List VolumeAttachment),
      FindVolumeAttachment v (ps.map Except.ok) =
        match ps.flatten.find? isLive with
        | some a => Except.ok a
        | none => Except.error (findErrMsg v) := by
    intro ps
    induction ps with
    | nil => rfl
    | cons p rest ih =>
      simp only [List.map_cons, List.flatten_cons, FindVolumeAttachment,
        List.find?_append]
      cases h : p.find? isLive with
      | some a => simp [h]
      | none => simp [h, ih]
  refine ⟨main pages, ?_⟩
  intro front back hlive
  have hsome : (front.flatten.find? isLive).isSome := by
    rw [List.find?_isSome]
    obtain ⟨a, ha, hpa⟩ := List.any_eq_true.mp hlive
    exact ⟨a, ha, hpa⟩
  obtain ⟨a, ha⟩ := Option.isSome_iff_exists.mp hsome
  rw [main (front ++ back), main front, List.flatten_append, List.find?_append, ha]
  simp

/-- Witness for C4: a DETACHED entry on the first page is skipped, the
ATTACHING entry on the second page is returned, and a third page cannot
change the result. -/
theorem findVolumeAttachment_first_live_witness :
    FindVolumeAttachment (chars ("vol1"))
        (([[{ c1OtherVA with state := ResourceDetached }],
           [{ c1OtherVA with state := ResourceAttaching }]] ++
          [[c1OtherVA]]).map Except.ok)
      = FindVolumeAttachment (chars ("vol1"))
          ([[{ c1OtherVA with state := ResourceDetached }],
            [{ c1OtherVA with state := ResourceAttaching }]].map Except.ok) :=
  (findVolumeAttachment_first_live (chars ("vol1")) []).2
    [[{ c1OtherVA with state := ResourceDetached }],
     [{ c1OtherVA with state := ResourceAttaching }]]
    [[c1OtherVA]] (by decide)

theorem waitAttachedAux_skip (poll : Nat → Except Str VolumeAttachment) :
    ∀ (k i fuel sleeps : Nat),
      (∀ j, j < k → ∃ b, poll (i + j) = Except.ok b ∧ b.state = ResourceAttaching) →
      WaitForVolumeAttachedAux poll i (k + fuel) sleeps
        = WaitForVolumeAttachedAux poll (i + k) fuel (sleeps + k) := by
  intro k
  induction k with
  | zero => intro i fuel sleeps _; simp
  | succ k ih =>
    intro i fuel sleeps h
    obtain ⟨b, hb, hstate⟩ := h 0 (Nat.succ_pos k)
    rw [Nat.add_zero] at hb
    have harith : k + 1 + fuel = (k + fuel) + 1 := by omega
    rw [harith]
    have hstep : WaitForVolumeAttachedAux poll i ((k + fuel) + 1) sleeps
        = WaitForVolumeAttachedAux poll (i + 1) (k + fuel) (sleeps + 1) := by
      simp [WaitForVolumeAttachedAux, hb, hstate]
    rw [hstep, ih (i + 1) fuel (sleeps + 1) ?_]
    · rw [show i + 1 + k = i + (k + 1) by omega, show sleeps + 1 + k = sleeps + (k + 1) by omega]
    · intro j hj
      obtain ⟨c, hc, hcs⟩ := h (j + 1) (Nat.succ_lt_succ hj)
      exact ⟨c, by rw [show i + 1 + j = i + (j + 1) by omega]; exact hc, hcs⟩

/-- C3 (amended): the polling behaviour of `WaitForVolumeAttached` —
k ATTACHING observations (k < 120) followed by ATTACHED return the
attachment after exactly k sleeps; 120 ATTACHING observations exhaust the
retry budget with an error naming the retry count; an observation in any
other state fails at once, with no further sleep, with the error
`unexpected state %q while wating for volume attach` (sic). -/
theorem waitForVolumeAttached_behaviour (poll : Nat → Except Str VolumeAttachment)
    (k : Nat) (a : VolumeAttachment) :
    (k < 120 →
      (∀ j, j < k → ∃ b, poll j = Except.ok b ∧ b.state = ResourceAttaching) →
      poll k = Except.ok a → a.state = ResourceAttached →
      WaitForVolumeAttached poll = (Except.ok a, k)) ∧
    ((∀ j, j < 120 → ∃ b, poll j = Except.ok b ∧ b.state = ResourceAttaching) →
      WaitForVolumeAttached poll = (Except.error maxRetriesAttachMsg, 120)) ∧
    (k < 120 →
      (∀ j, j < k → ∃ b, poll j = Except.ok b ∧ b.state = ResourceAttaching) →
      poll k = Except.ok a → a.state ≠ ResourceAttaching → a.state ≠ ResourceAttached →
      WaitForVolumeAttached poll = (Except.error (unexpectedAttachMsg a.state), k)) := by
  have hadapt : ∀ m, (∀ j, j < m → ∃ b, poll j = Except.ok b ∧ b.state = ResourceAttaching) →
      ∀ j, j < m → ∃ b, poll (0 + j) = Except.ok b ∧ b.state = ResourceAttaching := by
    intro m hm j hj
    rw [Nat.zero_add]
    exact hm j hj
  have hAttachedNe : ¬(ResourceAttached = ResourceAttaching) := by decide
  refine ⟨?_, ?_, ?_⟩
  · intro hk hpre hpoll hstate
    have hsplit : ociMaxRetries = k + ((120 - k - 1) + 1) := by
      simp only [ociMaxRetries]; omega
    rw [WaitForVolumeAttached, hsplit,
      waitAttachedAux_skip poll k 0 ((120 - k - 1) + 1) 0 (hadapt k hpre)]
    rw [WaitForVolumeAttachedAux]
    simp [hpoll, hstate, hAttachedNe]
  · intro hpre
    have hsplit : ociMaxRetries = 120 + 0 := by simp [ociMaxRetries]
    rw [WaitForVolumeAttached, hsplit,
      waitAttachedAux_skip poll 120 0 0 0 (hadapt 120 hpre)]
    rfl
  · intro hk hpre hpoll hs1 hs2
    have hsplit : ociMaxRetries = k + ((120 - k - 1) + 1) := by
      simp only [ociMaxRetries]; omega
    rw [WaitForVolumeAttached, hsplit,
      waitAttachedAux_skip poll k 0 ((120 - k - 1) + 1) 0 (hadapt k hpre)]
    rw [WaitForVolumeAttachedAux]
    simp [hpoll, hs1, hs2]

/-- Witness for C3: observing ATTACHING, ATTACHING, ATTACHED returns the
attachment after exactly 2 sleeps. -/
theorem waitForVolumeAttached_behaviour_witness :
    WaitForVolumeAttached c3Poll = (Except.ok c1OtherVA, 2) :=
  (waitForVolumeAttached_behaviour c3Poll 2 c1OtherVA).1 (by decide)
    (fun j hj => ⟨{ c1OtherVA with state := ResourceAttaching },
      by simp [c3Poll, hj], rfl⟩)
    (by simp [c3Poll]) rfl

/-- C3 (counterexample to the claimed message): a DETACHED observation on
the first poll fails without sleeping, but with the message
`unexpected state "DETACHED" while wating for volume attach`, which is not
the message the claim states (the source misspells `waiting`). -/
theorem waitForVolumeAttached_message_counterexample :
    (WaitForVolumeAttached c3DetachedPoll).1
        = Except.error (unexpectedAttachMsg ResourceDetached) ∧
    (WaitForVolumeAttached c3DetachedPoll).2 = 0 ∧
    unexpectedAttachMsg ResourceDetached
        ≠ chars ("unexpected state \"DETACHED\" while waiting for volume attach") ∧
    unexpectedAttachMsg ResourceDetached
        ≠ chars ("unexpected state 'DETACHED' while waiting for volume attach") := by
  refine ⟨rfl, rfl, by decide, by decide⟩

/-- C1 (amended): when the attach-volume call fails with status code 409,
`Attach` searches the existing attachments for the volume; a lookup error
is returned as the Failure (in place of the original attach error); a found
attachment bound to a different instance yields a Failure whose message is
`Already attached to instance: ` followed by the requested instance id; a
found attachment bound to the requested instance proceeds as if the attach
call had succeeded, using the found attachment. -/
theorem attach_conflict_behaviour (instanceId volumeOCID e : Str) (env : AttachEnv)
    (hres : env.attachResult = Except.error e) (hcode : env.attachStatusCode = 409) :
    (∀ e2, FindVolumeAttachment volumeOCID env.pages = Except.error e2 →
      AttachCore instanceId volumeOCID env = Fail e2) ∧
    (∀ a, FindVolumeAttachment volumeOCID env.pages = Except.ok a →
      a.instanceId ≠ instanceId →
      AttachCore instanceId volumeOCID env
        = Fail (chars ("Already attached to instance: ") ++ instanceId)) ∧
    (∀ a, FindVolumeAttachment volumeOCID env.pages = Except.ok a →
      a.instanceId = instanceId →
      AttachCore instanceId volumeOCID env = attachFinish a env) := by
  refine ⟨?_, ?_, ?_⟩
  · intro e2 hfind
    simp [AttachCore, hres, hcode, hfind]
  · intro a hfind hne
    simp [AttachCore, hres, hcode, hfind, hne]
  · intro a hfind heq
    simp [AttachCore, hres, hcode, hfind, heq]

/-- Witness for C1 (amended), matching-instance branch: with a 409 conflict
and the existing live attachment owned by the requested instance, `Attach`
proceeds with the found attachment. -/
theorem attach_conflict_behaviour_witness :
    AttachCore (chars ("instA")) (chars ("vol1")) c1EnvSame
      = attachFinish { c1OtherVA with instanceId := chars ("instA") } c1EnvSame :=
  (attach_conflict_behaviour (chars ("instA")) (chars ("vol1"))
      (chars ("conflict: attach failed")) c1EnvSame rfl rfl).2.2
    { c1OtherVA with instanceId := chars ("instA") } rfl rfl

/-- C1 (counterexample): at a 409 conflict with the volume held by instance
`instB`, the Failure message names the requested instance `instA`, not the
other instance; and at a 409 conflict with no attachment found, the Failure
carries the lookup error, not the original attach error. -/
theorem attach_conflict_counterexample :
    AttachCore (chars ("instA")) (chars ("vol1")) c1EnvOther
      = Fail (chars ("Already attached to instance: ") ++ chars ("instA")) ∧
    ¬ (chars ("instB")
        <:+: (AttachCore (chars ("instA")) (chars ("vol1")) c1EnvOther).message) ∧
    AttachCore (chars ("instA")) (chars ("vol1")) c1EnvNone
      = Fail (findErrMsg (chars ("vol1"))) ∧
    (AttachCore (chars ("instA")) (chars ("vol1")) c1EnvNone).message
      ≠ chars ("conflict: attach failed") := by
  refine ⟨by decide, by decide, by decide, by decide⟩

theorem findVolumeAttachment_none_of_no_live (v : Str) :
    ∀ pages : List (Except Str (List VolumeAttachment)),
      (∀ p ∈ pages, ∃ l, p = Except.ok l ∧ ∀ a ∈ l, isLive a = false) →
      FindVolumeAttachment v pages = Except.error (findErrMsg v) := by
  intro pages
  induction pages with
  | nil => intro _; rfl
  | cons p rest ih =>
    intro h
    obtain ⟨l, hp, hall⟩ := h p (List.mem_cons_self p rest)
    have hnone : l.find? isLive = none := by
      rw [List.find?_eq_none]
      intro a ha
      simp [hall a ha]
    rw [hp]
    simp only [FindVolumeAttachment, hnone]
    exact ih fun q hq => h q (List.mem_cons_of_mem p hq)

/-- C2: Detach is not idempotent — when every enumerated attachment of the
volume is in a non-live state (already detached), Detach fails with the
lookup error because `FindVolumeAttachment` returns no handle; while a
Detach that finds a live attachment, whose detach call succeeds and whose
first poll observes DETACHED, returns Success. -/
theorem detach_not_idempotent (v : Str) :
    (∀ env : DetachEnv,
      (∀ p ∈ env.pages, ∃ l, p = Except.ok l ∧ ∀ a ∈ l, isLive a = false) →
      DetachCore v env = Fail (findErrMsg v)) ∧
    (∀ (env : DetachEnv) (a b : VolumeAttachment),
      FindVolumeAttachment v env.pages = Except.ok a →
      env.detachResult a.id = Except.ok () →
      env.poll a.id 0 = Except.ok b → b.state = ResourceDetached →
      DetachCore v env = Succeed []) := by
  constructor
  · intro env hdead
    simp [DetachCore, findVolumeAttachment_none_of_no_live v env.pages hdead]
  · intro env a b hfind hdetach hpoll hstate
    have hne : ¬(ResourceDetached = ResourceDetaching) := by decide
    simp only [DetachCore, hfind, hdetach, WaitForVolumeDetached, ociMaxRetries]
    rw [WaitForVolumeDetachedAux]
    simp [hpoll, hstate, hne]

/-- Witness for C2: with the volume's only enumerable attachment DETACHED
the call fails with the lookup error; with a live attachment and successful
detach and poll outcomes the first call succeeds. -/
theorem detach_not_idempotent_witness :
    DetachCore (chars ("vol1")) c2EnvGone = Fail (findErrMsg (chars ("vol1"))) ∧
    DetachCore (chars ("vol1")) c2EnvLive = Succeed [] := by
  constructor
  · refine (detach_not_idempotent (chars ("vol1"))).1 c2EnvGone ?_
    intro p hp
    simp only [c2EnvGone, List.mem_singleton] at hp
    subst hp
    exact ⟨_, rfl, by decide⟩
  · exact (detach_not_idempotent (chars ("vol1"))).2 c2EnvLive c1OtherVA
      { c1OtherVA with state := ResourceDetached } rfl rfl rfl rfl

/-- C10: `IsAttached` always returns status Success; a lookup error yields
attached false with the error text as the message, while a found attachment
yields attached true. -/
theorem isAttached_no_failure (v : Str) (pages : List (Except Str (List VolumeAttachment))) :
    (IsAttachedCore v pages).status = StatusSuccess ∧
    (∀ e, FindVolumeAttachment v pages = Except.error e →
      IsAttachedCore v pages
        = { status := StatusSuccess, message := e, device := [], attached := false }) ∧
    (∀ a, FindVolumeAttachment v pages = Except.ok a →
      IsAttachedCore v pages
        = { status := StatusSuccess, message := [], device := [], attached := true }) := by
  refine ⟨?_, ?_, ?_⟩
  · cases h : FindVolumeAttachment v pages <;> simp [IsAttachedCore, h]
  · intro e he
    simp [IsAttachedCore, he]
  · intro a ha
    simp [IsAttachedCore, ha]

/-- Witness for C10: with no pages at all the lookup fails and `IsAttached`
reports Success with attached false and the lookup error as message. -/
theorem isAttached_no_failure_witness :
    IsAttachedCore (chars ("vol1")) []
      = { status := StatusSuccess, message := findErrMsg (chars ("vol1")),
          device := [], attached := false } :=
  (isAttached_no_failure (chars ("vol1")) []).2.1 (findErrMsg (chars ("vol1"))) rfl

/-- C7: the device-level operations are idempotent at the public interface
— `MountDevice` on an already-open device returns Success at once,
performing no iSCSI registration, login, or format-and-mount, and
`UnmountDevice` on a missing mount point returns Success at once,
performing no unmount, logout, or database removal; as both are functions
of the host state, a second identical call returns the same Success with
the same empty action list. -/
theorem mountDevice_unmountDevice_idempotent (env : IscsiEnv) (dev : Str) :
    (env.newFromDevicePath = Except.ok () → env.deviceOpened = Except.ok true →
      MountDevice env dev
        = (Succeed (chars ("Device already mounted. Nothing to do.")), [])) ∧
    (env.mountPointLookup = Except.error MountPointErr.notFound →
      UnmountDevice env = (Succeed (chars ("Mount point not found. Nothing to do.")), [])) := by
  constructor
  · intro h1 h2
    simp [MountDevice, h1, h2]
  · intro h
    simp [UnmountDevice, h]

/-- Witness for C7 on a host whose device is already mounted and whose
mount point is already gone. -/
theorem mountDevice_unmountDevice_idempotent_witness :
    MountDevice c7Env (chars ("/dev/disk/by-path/x"))
        = (Succeed (chars ("Device already mounted. Nothing to do.")), []) ∧
    UnmountDevice c7Env
        = (Succeed (chars ("Mount point not found. Nothing to do.")), []) :=
  ⟨(mountDevice_unmountDevice_idempotent c7Env (chars ("/dev/disk/by-path/x"))).1 rfl rfl,
   (mountDevice_unmountDevice_idempotent c7Env (chars ("/dev/disk/by-path/x"))).2 rfl⟩

/-- C8: for every input the Mount, Unmount and getvolumename call-outs
return status Not supported — which differs from both Success and Failure —
and the process-boundary exit code treats Not supported like Success
(exit code 0, versus 1 for Failure). -/
theorem unsupported_callouts (mountDir : Str) (opts : Options) :
    Driver.Mount mountDir opts = NotSupported [] ∧
    Driver.Unmount mountDir = NotSupported [] ∧
    (Driver.Mount mountDir opts).status = StatusNotSupported ∧
    (Driver.Unmount mountDir).status = StatusNotSupported ∧
    execGetvolumename.status = StatusNotSupported ∧
    StatusNotSupported ≠ StatusSuccess ∧
    StatusNotSupported ≠ StatusFailure ∧
    exitCode (Driver.Mount mountDir opts) = 0 ∧
    exitCode (Driver.Unmount mountDir) = 0 ∧
    exitCode execGetvolumename = 0 ∧
    exitCode (Succeed []) = 0 ∧
    exitCode (Fail []) = 1 := by
  refine ⟨rfl, rfl, rfl, rfl, rfl, by decide, by decide, rfl, rfl,
    rfl, rfl, rfl⟩

/-- C9 (code evaluated at the failing input): registering a concrete driver
under a fresh name stores the map-lookup zero value (nil) instead of the
driver, because the source's short declaration shadows the `driver`
parameter; the subsequent Get returns that nil value without error, not the
registered driver. -/
theorem register_get_stores_nil :
    Register (chars ("oci-bvs")) (some 7) [] = [(chars ("oci-bvs"), none)] ∧
    Get (chars ("oci-bvs")) (Register (chars ("oci-bvs")) (some 7) [])
      = Except.ok none ∧
    Get (chars ("oci-bvs")) (Register (chars ("oci-bvs")) (some 7) [])
      ≠ Except.ok (some 7) := by
  refine ⟨by decide, by decide, by decide⟩

end OCIFlex
